import Mathlib

/-!
Verification of the CoderCombat tournament manager against its specification.

The definitions below are shallow embeddings of the Python sources:
`src/config/settings.py`, `src/core/contest_engine.py`,
`src/core/contest_manager.py`, `src/core/database.py`,
`src/core/domjudge_db.py`, `src/utils/validators.py`, `src/utils/helpers.py`.
Machine integers are modelled as `Nat`; fallible operations return
`Option`/`Except`; the two SQL databases are modelled by explicit state
passing with success/failure oracles for the individual statements.
-/

namespace CoderCombat

/-! ## Configuration (`src/config/settings.py`) -/

/-- `TOURNAMENT_CONFIG['total_teams']` (default 48). -/
def TOURNAMENT_total_teams : Nat := 48

/-- `TOURNAMENT_CONFIG['total_rounds']` (default 8). -/
def TOURNAMENT_total_rounds : Nat := 8

/-- `TOURNAMENT_CONFIG['contest_duration_minutes']` (default 50). -/
def TOURNAMENT_contest_duration_minutes : Nat := 50

/-- `TOURNAMENT_CONFIG['wrong_submission_penalty_minutes']` (default 5). -/
def TOURNAMENT_penalty_minutes : Nat := 5

/-- One round's entry of `ROUND_CONFIG`: the ordered `contests` dict
(contest-type key to count) and the `problems` dict (type to problem count). -/
structure RoundCfg where
  contests : List (String × Nat)
  problems : List (String × Nat)
deriving DecidableEq

/-- `ROUND_CONFIG` from `src/config/settings.py`, in source order. -/
def ROUND_CONFIG : List (Nat × RoundCfg) :=
  [ (1, ⟨[("duels", 24)], [("duel", 3)]⟩),
    (2, ⟨[("duels_winners", 12), ("groups_losers", 1)], [("duel", 3), ("group", 4)]⟩),
    (3, ⟨[("duels_winners", 8), ("groups_losers", 1)], [("duel", 3), ("group", 4)]⟩),
    (4, ⟨[("duels_winners", 4), ("groups_losers", 1), ("speed_eliminated", 1)],
         [("duel", 3), ("group", 4), ("speed", 5)]⟩),
    (5, ⟨[("groups_losers", 1), ("speed_eliminated", 1)], [("group", 4), ("speed", 5)]⟩),
    (6, ⟨[("duels", 4)], [("duel", 3)]⟩),
    (7, ⟨[("duels_winners", 2), ("groups_losers", 1)], [("duel", 3), ("group", 4)]⟩),
    (8, ⟨[("final", 1), ("third_place", 1)], [("duel", 3)]⟩) ]

/-- Python's `"{:02d}".format n` for a natural number. -/
def pad2 (n : Nat) : String :=
  if n < 10 then "0" ++ toString n else toString n

/-- `CONTEST_NAMING['duel']`: `R{round}_Duel_{number:02d}`. -/
def duelName (round number : Nat) : String :=
  "R" ++ toString round ++ "_Duel_" ++ pad2 number

/-- `CONTEST_NAMING['group']`: `R{round}_Group_{league}`. -/
def groupName (round : Nat) (league : String) : String :=
  "R" ++ toString round ++ "_Group_" ++ league

/-- `CONTEST_NAMING['speed']`: `R{round}_Speed_{type}`. -/
def speedName (round : Nat) (ty : String) : String :=
  "R" ++ toString round ++ "_Speed_" ++ ty

/-- `CONTEST_NAMING['final']`: `R{round}_Final`. -/
def finalName (round : Nat) : String :=
  "R" ++ toString round ++ "_Final"

/-- `CONTEST_NAMING['third_place']`: `R{round}_Third_Place`. -/
def thirdPlaceName (round : Nat) : String :=
  "R" ++ toString round ++ "_Third_Place"

/-! ## Contest engine (`src/core/contest_engine.py`) -/

/-- The contest-data dictionary built by `ContestEngine._create_contest_data`. -/
structure Contest where
  contest_name : String
  round_number : Nat
  contest_type : String
  max_teams : Nat
  problems_count : Nat
  duration_minutes : Nat
  penalty_minutes : Nat
  domjudge_contest_id : Option Nat
  status : String
deriving DecidableEq

/-- A value stored in one contest-flow entry (the dict values are
heterogeneous: strings, booleans, numbers or rank lists). -/
inductive FlowVal where
  | s (v : String)
  | b (v : Bool)
  | n (v : Nat)
  | ranks (v : List Nat)
deriving DecidableEq

/-- `ContestEngine._initialize_contest_flow_mapping`, entry for `R1_Duel_i`. -/
def r1DuelFlow (i : Nat) : String × List (String × FlowVal) :=
  (duelName 1 i,
    [("winner_to", .s (duelName 2 ((i - 1) / 2 + 1))),
     ("loser_to", .s "R2_Group_Losers")])

/-- `ContestEngine._initialize_contest_flow_mapping`, entry for `R2_Duel_i`. -/
def r2DuelFlow (i : Nat) : String × List (String × FlowVal) :=
  (duelName 2 i,
    [("winner_to", .s (if i ≤ 8 then duelName 3 ((i - 1) / 2 + 1) else duelName 3 (i - 4))),
     ("loser_to", .s "R3_Group_Losers")])

/-- `ContestEngine._initialize_contest_flow_mapping`, entry for `R3_Duel_i`. -/
def r3DuelFlow (i : Nat) : String × List (String × FlowVal) :=
  (duelName 3 i,
    [("winner_to", .s (duelName 4 ((i - 1) / 2 + 1))),
     ("loser_to", .s "R4_Group_Losers")])

/-- `ContestEngine._initialize_contest_flow_mapping`, entry for `R4_Duel_i`. -/
def r4DuelFlow (i : Nat) : String × List (String × FlowVal) :=
  (duelName 4 i,
    [("winner_to", .s "R5_Rest"),
     ("loser_to", .s "R5_Group_Losers")])

/-- `ContestEngine._initialize_contest_flow_mapping`, entry for `R6_Duel_i`. -/
def r6DuelFlow (i : Nat) : String × List (String × FlowVal) :=
  (duelName 6 i,
    [("winner_to", .s (duelName 7 ((i - 1) / 2 + 1))),
     ("loser_to", .s "R7_Group_Losers")])

/-- `ContestEngine._initialize_contest_flow_mapping`: the complete static
flow-routing dict, keys in source insertion order. -/
def CONTEST_FLOW : List (String × List (String × FlowVal)) :=
  ((List.range' 1 24).map r1DuelFlow)
  ++ ((List.range' 1 12).map r2DuelFlow)
  ++ [("R2_Group_Losers",
       [("rank_1_to", .s "R3_Duel_05"),
        ("rank_2_to", .s "R3_Duel_06"),
        ("rank_3_to", .s "R3_Duel_07"),
        ("rank_4_to", .s "R3_Duel_08"),
        ("rank_5_plus_to", .s "R3_Group_Losers")])]
  ++ ((List.range' 1 8).map r3DuelFlow)
  ++ [("R3_Group_Losers",
       [("eliminated", .b true),
        ("final_ranks", .ranks (List.range' 25 24))])]
  ++ ((List.range' 1 4).map r4DuelFlow)
  ++ [("R4_Group_Losers", [("all_to", .s "R5_Group_Losers")])]
  ++ [("R4_Speed_Eliminated",
       [("ranking_only", .b true),
        ("final_ranks", .ranks (List.range' 25 24))])]
  ++ [("R5_Group_Losers",
       [("rank_1_to", .s "R6_Duel_01"),
        ("rank_2_to", .s "R6_Duel_02"),
        ("rank_3_to", .s "R6_Duel_03"),
        ("rank_4_to", .s "R6_Duel_04"),
        ("rank_5_plus_to", .s "eliminated"),
        ("final_ranks", .ranks (List.range' 9 16))])]
  ++ [("R5_Speed_Eliminated",
       [("ranking_only", .b true),
        ("final_ranks", .ranks (List.range' 25 24))])]
  ++ ((List.range' 1 4).map r6DuelFlow)
  ++ [("R7_Duel_01",
       [("winner_to", .s "R8_Final"), ("loser_to", .s "R8_Third_Place")])]
  ++ [("R7_Duel_02",
       [("winner_to", .s "R8_Final"), ("loser_to", .s "R8_Third_Place")])]
  ++ [("R7_Group_Losers", [("final_ranks", .ranks (List.range' 5 4))])]
  ++ [("R8_Final", [("winner_rank", .n 1), ("loser_rank", .n 2)])]
  ++ [("R8_Third_Place", [("winner_rank", .n 3), ("loser_rank", .n 4)])]

/-- `ContestEngine.get_contest_flow`: `CONTEST_FLOW.get(contest_name)`. -/
def get_contest_flow (contest_name : String) : Option (List (String × FlowVal)) :=
  CONTEST_FLOW.lookup contest_name

/-- `ContestEngine._create_contest_data`. -/
def create_contest_data (name : String) (round_num : Nat) (contest_type : String)
    (max_teams problems_count : Nat) : Contest :=
  { contest_name := name
    round_number := round_num
    contest_type := contest_type
    max_teams := max_teams
    problems_count := problems_count
    duration_minutes := TOURNAMENT_contest_duration_minutes
    penalty_minutes := TOURNAMENT_penalty_minutes
    domjudge_contest_id := none
    status := "planned" }

/-- `ContestEngine._calculate_group_max_teams`. -/
def calculate_group_max_teams (round_num : Nat) (league : String) : Nat :=
  if round_num = 2 ∧ league = "losers" then 24
  else if round_num = 3 ∧ league = "losers" then 32
  else if round_num = 4 ∧ league = "losers" then 16
  else if round_num = 5 ∧ league = "losers" then 8
  else if round_num = 7 ∧ league = "losers" then 4
  else 24

/-- `ContestEngine._calculate_speed_max_teams`. -/
def calculate_speed_max_teams (round_num : Nat) : Nat :=
  if round_num = 4 then 24
  else if round_num = 5 then 36
  else 24

/-- `problems_config[key]`; every access in the source hits a present key. -/
def problemsAt (problems_config : List (String × Nat)) (key : String) : Nat :=
  (problems_config.lookup key).getD 0

/-- `ContestEngine._generate_contests_by_type`. -/
def generate_contests_by_type (round_num : Nat) (contest_type : String) (count : Nat)
    (problems_config : List (String × Nat)) : List Contest :=
  if contest_type = "duels" then
    (List.range' 1 count).map fun i =>
      create_contest_data (duelName round_num i) round_num "duel" 2
        (problemsAt problems_config "duel")
  else if contest_type = "duels_winners" then
    (List.range' 1 count).map fun i =>
      create_contest_data (duelName round_num i) round_num "duel" 2
        (problemsAt problems_config "duel")
  else if contest_type = "groups_losers" then
    [create_contest_data (groupName round_num "Losers") round_num "group"
      (calculate_group_max_teams round_num "losers") (problemsAt problems_config "group")]
  else if contest_type = "speed_eliminated" then
    [create_contest_data (speedName round_num "Eliminated") round_num "speed"
      (calculate_speed_max_teams round_num) (problemsAt problems_config "speed")]
  else if contest_type = "final" then
    [create_contest_data (finalName round_num) round_num "duel" 2
      (problemsAt problems_config "duel")]
  else if contest_type = "third_place" then
    [create_contest_data (thirdPlaceName round_num) round_num "duel" 2
      (problemsAt problems_config "duel")]
  else []

/-- `ContestEngine.generate_round_contests`; the `ValueError` raised for a
round number outside `ROUND_CONFIG` is modelled as `Except.error`. -/
def generate_round_contests (round_number : Nat) : Except String (List Contest) :=
  match ROUND_CONFIG.lookup round_number with
  | none => .error ("Invalid round number: " ++ toString round_number)
  | some cfg =>
      .ok (cfg.contests.flatMap fun tc =>
        generate_contests_by_type round_number tc.1 tc.2 cfg.problems)

/-- `ContestEngine.generate_all_contests`: concatenates the per-round lists
for rounds `1 .. TOURNAMENT_CONFIG['total_rounds']`; an exception from any
round propagates. -/
def generate_all_contests : Except String (List Contest) :=
  (List.range' 1 TOURNAMENT_total_rounds).foldlM
    (fun acc r => do
      let rc ← generate_round_contests r
      pure (acc ++ rc))
    []

/-- `ContestEngine._validate_team_flow`. -/
def validate_team_flow : Bool :=
  TOURNAMENT_total_teams = 48

/-- `ContestEngine.validate_contest_structure`: returns
`(len(errors) == 0, errors)`; errors are the missing-flow-mapping messages
(in generated-contest order) followed by the team-flow message if any. -/
def validate_contest_structure : Except String (Bool × List String) := do
  let all_contests ← generate_all_contests
  let flowErrors := all_contests.filterMap fun c =>
    if (get_contest_flow c.contest_name).isSome then none
    else some ("Missing flow mapping for contest: " ++ c.contest_name)
  let errors := flowErrors ++
    (if validate_team_flow then []
     else ["Team flow validation failed - teams don\x27t add up correctly"])
  pure (errors.isEmpty, errors)

/-- `ContestEngine.get_initial_team_placement`: places teams `1..48` two at a
time into the 24 round-1 duels, with a running team counter. -/
def get_initial_team_placement : List (String × List Nat) :=
  (((List.range' 1 24).foldl
    (fun (acc : List (String × List Nat) × Nat) i =>
      (acc.1 ++ [(duelName 1 i, [acc.2, acc.2 + 1])], acc.2 + 2))
    ([], 1))).1

/-! ## Tournament database manager (`src/core/database.py`) -/

/-- The single dynamic `UPDATE tournament_state SET f1=%s, ... WHERE id = 1`
statement built by `DatabaseManager.update_tournament_state`: target table,
the `SET` field/value pairs in argument order, and the fixed `WHERE id`. -/
structure UpdateQuery where
  table : String
  set_fields : List (String × String)
  where_id : Nat
deriving DecidableEq

/-- The query `update_tournament_state` builds for a non-empty field set. -/
def build_update_query (kwargs : List (String × String)) : UpdateQuery :=
  { table := "tournament_state", set_fields := kwargs, where_id := 1 }

/-- `DatabaseManager.update_tournament_state`: with an empty `kwargs` it
returns `False` without issuing any statement (`none`); otherwise it issues
the single dynamic UPDATE (`some`). Field values are modelled as strings. -/
def update_tournament_state (kwargs : List (String × String)) : Option UpdateQuery :=
  if kwargs.isEmpty then none else some (build_update_query kwargs)

/-- SQL semantics of executing an `UpdateQuery` against the
`tournament_state` table, modelled as a map from row id and column name to
value: the row matching `WHERE id` has the named columns set; everything
else is untouched. -/
def apply_update (q : UpdateQuery) (db : Nat → String → String) :
    Nat → String → String :=
  fun id col =>
    if id = q.where_id then
      match q.set_fields.lookup col with
      | some v => v
      | none => db id col
    else db id col

/-! ## DOMjudge database manager (`src/core/domjudge_db.py`) -/

/-- One row of the DOMjudge `user` table as inserted by
`DOMjudgeDBManager.create_user` (`enabled` fixed to 1, `teamid` to NULL). -/
structure DJUser where
  userid : Nat
  username : String
  name : String
  email : String
  password : String
  enabled : Nat
  teamid : Option Nat
deriving DecidableEq

/-- The DOMjudge database state touched by `create_user`: the `user` table
and the `userrole` table (pairs `(userid, roleid)`). -/
structure DJState where
  users : List DJUser
  userroles : List (Nat × Nat)
deriving DecidableEq

/-- Success/failure oracle for the two `execute_query` INSERT statements
issued by `create_user` (a failing statement is rolled back, leaving the
database unchanged, and `execute_query` returns `False`). -/
structure DJBehaviour where
  insertUserOk : Bool
  insertRoleOk : Bool
deriving DecidableEq

/-- `DOMjudgeDBManager.user_exists`: `COUNT(*) > 0` on username. -/
def user_exists (st : DJState) (username : String) : Bool :=
  st.users.any fun u => u.username = username

/-- `DOMjudgeDBManager.get_next_user_id`: `COALESCE(MAX(userid), 0) + 1`. -/
def get_next_user_id (st : DJState) : Nat :=
  (st.users.map DJUser.userid).foldl max 0 + 1

/-- `DOMjudgeDBManager.create_user`: checks existence, picks the next user
id, inserts the user row, then inserts the role row; returns the created id
on full success, `none` on any failure, together with the resulting
database state. The MD5 password hash is modelled by an abstract `hash`
function. -/
def create_user (hash : String → String) (b : DJBehaviour) (st : DJState)
    (username name email password role : String) : Option Nat × DJState :=
  if user_exists st username then (none, st)
  else
    let user_id := get_next_user_id st
    let password_hash := hash password
    if b.insertUserOk then
      let st1 : DJState :=
        { st with users :=
            st.users ++ [⟨user_id, username, name, email, password_hash, 1, none⟩] }
      let role_id := if role = "team" then 3 else 1
      if b.insertRoleOk then
        (some user_id, { st1 with userroles := st1.userroles ++ [(user_id, role_id)] })
      else (none, st1)
    else (none, st)

/-! ## Contest manager (`src/core/contest_manager.py`) -/

/-- One entry of the `failed_contests` list built by
`ContestManager.create_all_contests`. -/
structure FailedContest where
  name : String
  error : String
  domjudge_id : Option String
deriving DecidableEq

/-- The result dictionary of `ContestManager.create_all_contests`. -/
structure ContestCreationResults where
  success_count : Nat
  failed_contests : List FailedContest
  total_contests : Nat
  created_contests : List (String × String)
deriving DecidableEq

/-- The judge-system behaviour during one `create_all_contests` run, indexed
by the position of the contest in the plan: the outcome of
`_create_single_contest` (a DOMjudge contest id, or `none` on failure), of
`_set_contest_closed`, and of `_save_contest_to_db`. -/
structure JudgeBehaviour where
  createResult : Nat → Option String
  setClosedOk : Nat → Bool
  saveOk : Nat → Bool

/-- The per-contest loop of `ContestManager.create_all_contests`, processing
the plan suffix starting at position `i`: returns the success count, the
failure list and the created list contributed by that suffix, in source
order. Each stage failure records its reason and continues with the next
contest. -/
def create_contests_loop (b : JudgeBehaviour) :
    Nat → List Contest → Nat × List FailedContest × List (String × String)
  | _, [] => (0, [], [])
  | i, c :: rest =>
    let r := create_contests_loop b (i + 1) rest
    match b.createResult i with
    | some cid =>
      if b.setClosedOk i then
        if b.saveOk i then
          (r.1 + 1, r.2.1, (c.contest_name, cid) :: r.2.2)
        else
          (r.1, ⟨c.contest_name, "Failed to save to local database", some cid⟩ :: r.2.1,
           r.2.2)
      else
        (r.1, ⟨c.contest_name, "Failed to set contest as closed", some cid⟩ :: r.2.1,
         r.2.2)
    | none =>
      (r.1, ⟨c.contest_name, "Failed to create in DOMjudge", none⟩ :: r.2.1, r.2.2)

/-- `ContestManager.create_all_contests` on a given plan: on DOMjudge
connection failure it reports zero successes and no failure entries;
otherwise it runs the per-contest loop. `total_contests` is always the plan
length. The DOMjudge connection is released on exit in both cases. -/
def create_all_contests (connectOk : Bool) (plan : List Contest)
    (b : JudgeBehaviour) : ContestCreationResults :=
  if connectOk then
    let r := create_contests_loop b 0 plan
    ⟨r.1, r.2.1, plan.length, r.2.2⟩
  else ⟨0, [], plan.length, []⟩

/-- Concrete two-contest plan used by the C4 witness. -/
def witness_plan : List Contest :=
  [create_contest_data (duelName 1 1) 1 "duel" 2 3,
   create_contest_data (duelName 1 2) 1 "duel" 2 3]

/-- Concrete behaviour for the C4 witness: creation fails exactly for the
first planned contest, every other stage succeeds. -/
def witness_behaviour : JudgeBehaviour :=
  { createResult := fun i => if i = 0 then none else some "7"
    setClosedOk := fun _ => true
    saveOk := fun _ => true }

/-! ## Team validator: username generation (`src/utils/validators.py`) -/

/-- `re.sub(r'_+', '_', ·)` over the character list: each maximal run of
underscores, scanned left to right, is replaced by a single underscore. -/
def subUnderscores : List Char → List Char
  | [] => []
  | c :: t =>
    if c = '_' then '_' :: subUnderscores (t.dropWhile fun x => x = '_')
    else c :: subUnderscores t
termination_by l => l.length
decreasing_by
  all_goals simp_wf
  all_goals
    first
    | omega
    | (have hle : (List.dropWhile (fun x => decide (x = '_')) t).length ≤ t.length :=
        (List.dropWhile_sublist _).length_le
       omega)

/-- The spec's "collapse repeated underscores", written independently as a
left-to-right scan: the flag records whether the previous emitted character
of the current run was an underscore, in which case further underscores are
skipped. -/
def collapseSpecGo : Bool → List Char → List Char
  | _, [] => []
  | prevU, c :: t =>
    if c = '_' then
      if prevU then collapseSpecGo true t else '_' :: collapseSpecGo true t
    else c :: collapseSpecGo false t

/-- The spec's collapse step, starting outside an underscore run. -/
def collapse_spec (l : List Char) : List Char := collapseSpecGo false l

/-- Python `.strip('_')`: drop underscores from both ends. -/
def stripUnderscores (l : List Char) : List Char :=
  ((l.dropWhile fun c => c = '_').reverse.dropWhile fun c => c = '_').reverse

/-- `if len(username) < 3: username = f"team_{username}"`. -/
def ensureMinLength (l : List Char) : List Char :=
  if l.length < 3 then "team_".toList ++ l else l

/-- `if len(username) > 50: username = username[:50]`. -/
def ensureMaxLength (l : List Char) : List Char :=
  if l.length > 50 then l.take 50 else l

/-- `TeamValidator.generate_username`: lowercase, replace every character
outside `[a-zA-Z0-9]` (exactly `Char.isAlphanum`) by `_`, collapse
underscore runs, strip leading/trailing underscores, prefix `team_` when
under 3 characters, truncate to 50. `Char.toLower` models Python
`str.lower` (they agree on ASCII, the domain of every username the
validators accept). -/
def generate_username (team_name : String) : String :=
  String.mk (ensureMaxLength (ensureMinLength (stripUnderscores (subUnderscores
    ((team_name.toList.map Char.toLower).map fun c =>
      if c.isAlphanum then c else '_')))))

/-- Modelled from the spec's wording of username generation (for the
refinement part of the claim): "lowercase the team name; replace every
non-alphanumeric character with an underscore; collapse repeated
underscores; trim leading/trailing underscores; if the result is under 3
characters, prefix with `team_`; truncate to at most 50 characters". -/
def generate_username_spec (team_name : String) : String :=
  String.mk (ensureMaxLength (ensureMinLength (stripUnderscores (collapse_spec
    ((team_name.toList.map Char.toLower).map fun c =>
      if c.isAlphanum then c else '_')))))

/-- A character allowed in a generated username per the claim: lowercase
letter, digit, or underscore. -/
def usernameOkChar (c : Char) : Bool := c.isLower || c.isDigit || c = '_'

/-- No two adjacent underscores (the "single underscores" part of C8). -/
def noDoubleUnderscore : List Char → Bool
  | a :: b :: t => if a = '_' ∧ b = '_' then false else noDoubleUnderscore (b :: t)
  | _ => true

/-! ## Team and CSV validators (`src/utils/validators.py`) -/

/-- Python `\s` / `str.strip()` whitespace (ASCII part). -/
def isSpaceChar (c : Char) : Bool :=
  c = ' ' || c = '\t' || c = '\n' || c = '\r' || c = '\x0b' || c = '\x0c'

/-- Python `str.strip()`: drop whitespace from both ends. -/
def pyStrip (s : String) : String :=
  String.mk (((s.toList.dropWhile isSpaceChar).reverse.dropWhile isSpaceChar).reverse)

/-- Python `str.lower()` (ASCII case mapping, the domain of this data). -/
def pyLower (s : String) : String :=
  String.mk (s.toList.map Char.toLower)

/-- A character of the team-name class `[a-zA-Z0-9\s\-_\.()]`. -/
def isTeamNameChar (c : Char) : Bool :=
  c.isAlphanum || isSpaceChar c || c = '-' || c = '_' || c = '.' ||
    c = '(' || c = ')'

/-- `TeamValidator.validate_team_name`: `(is_valid, error_message)`. -/
def validate_team_name (name : String) : Bool × Option String :=
  if name = "" ∨ pyStrip name = "" then
    (false, some "Team name cannot be empty")
  else
    let nm := pyStrip name
    if nm.length < 2 then
      (false, some "Team name must be at least 2 characters")
    else if nm.length > 100 then
      (false, some "Team name must be less than 100 characters")
    else if ¬ (nm.toList.all isTeamNameChar ∧ nm.toList ≠ []) then
      (false, some ("Team name contains invalid characters (only letters, " ++
        "numbers, spaces, -, _, ., () allowed)"))
    else if nm ≠ pyStrip nm then
      (false, some "Team name cannot start or end with spaces")
    else (true, none)

/-- A character of the email local-part class `[a-zA-Z0-9._%+-]`. -/
def emailLocalChar (c : Char) : Bool :=
  c.isAlphanum || c = '.' || c = '_' || c = '%' || c = '+' || c = '-'

/-- A character of the email domain class `[a-zA-Z0-9.-]`. -/
def emailDomChar (c : Char) : Bool :=
  c.isAlphanum || c = '.' || c = '-'

/-- Match of `[a-zA-Z0-9.-]+\.[a-zA-Z]{2,}$` against the part after `@`:
split at the last dot (the TLD is dot-free), require a non-empty domain of
domain-class characters and an alphabetic TLD of length at least 2. -/
def emailDomainOk (dom : List Char) : Bool :=
  let tld := dom.reverse.takeWhile fun c => c ≠ '.'
  match dom.reverse.dropWhile (fun c => c ≠ '.') with
  | '.' :: domRev =>
      !domRev.isEmpty && domRev.all emailDomChar &&
        decide (tld.length ≥ 2) && tld.all Char.isAlpha
  | _ => false

/-- Full match of `^[a-zA-Z0-9._%+-]+@[a-zA-Z0-9.-]+\.[a-zA-Z]{2,}$`: the
local part is everything before the first `@` (the character classes all
exclude `@`), non-empty and of local-class characters; the rest matches
the domain part. -/
def matchesEmail (l : List Char) : Bool :=
  let lp := l.takeWhile fun c => c ≠ '@'
  match l.dropWhile (fun c => c ≠ '@') with
  | '@' :: dom => !lp.isEmpty && lp.all emailLocalChar && emailDomainOk dom
  | _ => false

/-- `TeamValidator.validate_email`: `(is_valid, error_message)`. -/
def validate_email (email : String) : Bool × Option String :=
  if email = "" ∨ pyStrip email = "" then
    (false, some "Email cannot be empty")
  else
    let em := pyLower (pyStrip email)
    if ¬ matchesEmail em.toList then (false, some "Invalid email format")
    else if em.length > 255 then
      (false, some "Email too long (max 255 characters)")
    else (true, none)

/-- `TeamValidator.validate_institution`: `(is_valid, error_message)`. -/
def validate_institution (institution : String) : Bool × Option String :=
  if institution = "" ∨ pyStrip institution = "" then
    (false, some "Institution cannot be empty")
  else
    let v := pyStrip institution
    if v.length < 2 then
      (false, some "Institution name must be at least 2 characters")
    else if v.length > 200 then
      (false, some "Institution name must be less than 200 characters")
    else (true, none)

/-- The cleaned `team_data` dict built per CSV row. -/
structure TeamData where
  name : String
  email : String
  institution : String
deriving DecidableEq

/-- `TeamValidator.validate_team_data`: the ordered field-to-error dict
(every row read by the CSV path carries all three keys). -/
def validate_team_data (td : TeamData) : List (String × Option String) :=
  [("name", (validate_team_name td.name).2),
   ("email", (validate_email td.email).2),
   ("institution", (validate_institution td.institution).2)]

/-- A validated team record as returned by `validate_teams_csv` (the
cleaned fields plus the originating row number). -/
structure TeamRecord where
  name : String
  email : String
  institution : String
  row_number : Nat
deriving DecidableEq

/-- The `Row N, field: reason` messages of one row's field errors. -/
def rowFieldErrors (row_num : Nat) (td : TeamData) : List String :=
  (validate_team_data td).filterMap fun fe =>
    fe.2.map fun err => "Row " ++ toString row_num ++ ", " ++ fe.1 ++ ": " ++ err

/-- The data-row loop of `CSVValidator.validate_teams_csv`, starting at row
number `row_num` with the names and emails seen so far: cleans each row,
collects field errors and duplicate-name/duplicate-email errors, excludes
rows with errors and returns the error list and the valid team records in
source order. -/
def validate_teams_rows_go (row_num : Nat) (seen_names seen_emails : List String) :
    List (String × String × String) → List String × List TeamRecord
  | [] => ([], [])
  | (n, e, inst) :: rest =>
    let td : TeamData := ⟨pyStrip n, pyLower (pyStrip e), pyStrip inst⟩
    let fieldErrs := rowFieldErrors row_num td
    let nameDup : Bool := td.name ≠ "" && seen_names.contains td.name
    let nameErrs := if nameDup then
        ["Row " ++ toString row_num ++ ": Duplicate team name \x27" ++
          td.name ++ "\x27"]
      else []
    let seen_names2 := if nameDup then seen_names else td.name :: seen_names
    let emailDup : Bool := td.email ≠ "" && seen_emails.contains td.email
    let emailErrs := if emailDup then
        ["Row " ++ toString row_num ++ ": Duplicate email \x27" ++
          td.email ++ "\x27"]
      else []
    let seen_emails2 := if emailDup then seen_emails else td.email :: seen_emails
    let rowErrors := fieldErrs ++ nameErrs ++ emailErrs
    let r := validate_teams_rows_go (row_num + 1) seen_names2 seen_emails2 rest
    if rowErrors.isEmpty then
      (r.1, ⟨td.name, td.email, td.institution, row_num⟩ :: r.2)
    else (rowErrors ++ r.1, r.2)

/-- `CSVValidator.validate_teams_csv` restricted to its data-row phase (the
file and header checks having passed): returns
`(is_valid, error_messages, valid_teams)`; rows start at number 2, the
no-valid-teams error is appended last, and the result is valid exactly when
the final error list is empty. -/
def validate_teams_rows (rows : List (String × String × String)) :
    Bool × List String × List TeamRecord :=
  let r := validate_teams_rows_go 2 [] [] rows
  let errors := r.1 ++ (if r.2.isEmpty then ["No valid teams found in CSV file"] else [])
  (errors.isEmpty, errors, r.2)

/-! ## Display helpers (`src/utils/helpers.py`) -/

/-- Python `f"{x:.1f}"` for the non-negative exact percentages produced by
`display_progress_bar` (the claim's value 50.0 is exactly representable, so
rounding mode is immaterial there). -/
def format_one_decimal (q : Rat) : String :=
  let n : Nat := (round (q * 10)).toNat
  toString (n / 10) ++ "." ++ toString (n % 10)

/-- `display_progress_bar` from `src/utils/helpers.py`. `int(width *
progress)` truncates toward zero, which on the non-negative ratios used
here coincides with `Rat.floor`. -/
def display_progress_bar (current total width : Nat) (pfx : String) : String :=
  if total = 0 then pfx ++ ": N/A"
  else
    let progress : Rat := (current : Rat) / (total : Rat)
    let filled_width : Nat := (((width : Rat) * progress).floor).toNat
    let bar := String.mk (List.replicate filled_width '█' ++
      List.replicate (width - filled_width) '░')
    let percentage : Rat := progress * 100
    pfx ++ ": |" ++ bar ++ "| " ++ format_one_decimal percentage ++ "% (" ++
      toString current ++ "/" ++ toString total ++ ")"

/-- C1: every contest name in the list produced by `generate_all_contests`
(rounds 1–8) has an entry in the static `CONTEST_FLOW` routing map, so
`validate_contest_structure` reports success with zero errors (in
particular zero missing-flow-mapping errors). -/
theorem bracket_flow_complete :
    (generate_all_contests.map fun l =>
      l.all fun c => (get_contest_flow c.contest_name).isSome) = Except.ok true ∧
    validate_contest_structure = Except.ok (true, []) := by
  constructor <;> rfl

/-- C2 counterexample: `generate_all_contests` produces 63 contests, while
the sum the spec states, 24+12+1+8+1+4+1+1+1+4+2+1+1+1, equals 62; the
claimed equality of the two is false. -/
theorem contest_total_ne_spec_sum :
    generate_all_contests.map List.length = Except.ok 63 ∧
    (63 : Nat) ≠ 24 + 12 + 1 + 8 + 1 + 4 + 1 + 1 + 1 + 4 + 2 + 1 + 1 + 1 := by
  exact ⟨by rfl, by decide⟩

/-- C2 (amended): the number of contests produced by `generate_all_contests`
over rounds 1–8 is 63 = 24+12+1+8+1+4+1+1+1+1+4+2+1+1+1, the total implied
by the static round table (the round-5 row contributes two contests). -/
theorem contest_total_count :
    generate_all_contests.map List.length =
      Except.ok (24 + 12 + 1 + 8 + 1 + 4 + 1 + 1 + 1 + 1 + 4 + 2 + 1 + 1 + 1) := by
  rfl

/-- C3: for `i = 1..12` the `CONTEST_FLOW` entry for `R2_Duel_i` routes the
winner to `R3_Duel_⌈i/2⌉` (written `(i+1)/2` in ℕ) when `i ≤ 8` and to
`R3_Duel_(i-4)` when `i = 9..12`, and routes the loser to
`R3_Group_Losers`. -/
theorem r2_duel_routing (i : Nat) (h1 : 1 ≤ i) (h2 : i ≤ 12) :
    get_contest_flow (duelName 2 i) =
      some [("winner_to",
              FlowVal.s (duelName 3 (if i ≤ 8 then (i + 1) / 2 else i - 4))),
            ("loser_to", FlowVal.s "R3_Group_Losers")] := by
  interval_cases i <;> rfl

/-- C3 witness: instantiated at `i = 10`, whose winner lands on duel slot 6. -/
theorem r2_duel_routing_witness :
    get_contest_flow (duelName 2 10) =
      some [("winner_to",
              FlowVal.s (duelName 3 (if 10 ≤ 8 then (10 + 1) / 2 else 10 - 4))),
            ("loser_to", FlowVal.s "R3_Group_Losers")] :=
  r2_duel_routing 10 (by decide) (by decide)

/-- C5: `get_initial_team_placement` gives duel `i` (for `i = 1..24`) exactly
the two team numbers `2i-1` and `2i`, and the concatenation of all placed
team numbers is exactly the list `[1..48]` — no omission, no duplication
(the list is already sorted, so sorting it yields `[1..48]` as well). -/
theorem initial_team_placement (i : Nat) (h1 : 1 ≤ i) (h2 : i ≤ 24) :
    get_initial_team_placement.lookup (duelName 1 i) = some [2 * i - 1, 2 * i] ∧
    get_initial_team_placement.flatMap Prod.snd = List.range' 1 48 := by
  refine ⟨?_, by rfl⟩
  interval_cases i <;> rfl

/-- C5 witness: instantiated at duel 7, which receives teams 13 and 14. -/
theorem initial_team_placement_witness :
    get_initial_team_placement.lookup (duelName 1 7) = some [2 * 7 - 1, 2 * 7] ∧
    get_initial_team_placement.flatMap Prod.snd = List.range' 1 48 :=
  initial_team_placement 7 (by decide) (by decide)

/-- C6: `update_tournament_state` with an empty field set returns failure
and issues no database statement; with a non-empty set it issues the single
UPDATE targeting only the `id = 1` row with exactly the named fields in its
SET clause, and executing that statement leaves every other row and, on the
`id = 1` row, every column not named in the field set unchanged, while each
named column receives exactly its given value. -/
theorem update_state_frame :
    update_tournament_state [] = none ∧
    (∀ kwargs : List (String × String), kwargs ≠ [] →
      update_tournament_state kwargs = some (build_update_query kwargs) ∧
      (build_update_query kwargs).where_id = 1 ∧
      (build_update_query kwargs).set_fields = kwargs) ∧
    (∀ (kwargs : List (String × String)) (db : Nat → String → String) (id : Nat)
        (col : String), id ≠ 1 →
      apply_update (build_update_query kwargs) db id col = db id col) ∧
    (∀ (kwargs : List (String × String)) (db : Nat → String → String)
        (col : String), kwargs.lookup col = none →
      apply_update (build_update_query kwargs) db 1 col = db 1 col) ∧
    (∀ (kwargs : List (String × String)) (db : Nat → String → String)
        (col : String) (v : String), kwargs.lookup col = some v →
      apply_update (build_update_query kwargs) db 1 col = v) := by
  refine ⟨rfl, ?_, ?_, ?_, ?_⟩
  · intro kwargs h
    match kwargs with
    | [] => exact absurd rfl h
    | _ :: _ => exact ⟨rfl, rfl, rfl⟩
  · intro kwargs db id col h
    simp [apply_update, build_update_query, h]
  · intro kwargs db col h
    simp [apply_update, build_update_query, h]
  · intro kwargs db col v h
    simp [apply_update, build_update_query, h]

/-- C6 witness: a one-field update of `current_round` on a database where
every cell holds `"z"`: row 2 is untouched, column `notes` of row 1 is
untouched, column `current_round` of row 1 becomes `"2"`. -/
theorem update_state_frame_witness :
    update_tournament_state [] = none ∧
    update_tournament_state [("current_round", "2")] =
      some (build_update_query [("current_round", "2")]) ∧
    apply_update (build_update_query [("current_round", "2")])
      (fun _ _ => "z") 2 "current_round" = "z" ∧
    apply_update (build_update_query [("current_round", "2")])
      (fun _ _ => "z") 1 "notes" = "z" ∧
    apply_update (build_update_query [("current_round", "2")])
      (fun _ _ => "z") 1 "current_round" = "2" :=
  ⟨update_state_frame.1,
   (update_state_frame.2.1 [("current_round", "2")] (by decide)).1,
   update_state_frame.2.2.1 [("current_round", "2")] (fun _ _ => "z") 2
     "current_round" (by decide),
   update_state_frame.2.2.2.1 [("current_round", "2")] (fun _ _ => "z")
     "notes" (by rfl),
   update_state_frame.2.2.2.2 [("current_round", "2")] (fun _ _ => "z")
     "current_round" "2" (by rfl)⟩

/-- C10: `create_user` is not atomic on failure: for a username not already
present, when the user-row INSERT succeeds but the role-assignment INSERT
fails, it returns `none` (failure) while the freshly inserted user row
remains in the `user` table and the `userrole` table is unchanged. -/
theorem create_user_nonatomic (hash : String → String) (st : DJState)
    (username name email password role : String)
    (h : user_exists st username = false) :
    (create_user hash ⟨true, false⟩ st username name email password role).1 = none ∧
    (create_user hash ⟨true, false⟩ st username name email password role).2.users =
      st.users ++ [⟨get_next_user_id st, username, name, email, hash password, 1, none⟩] ∧
    (create_user hash ⟨true, false⟩ st username name email password role).2.userroles =
      st.userroles := by
  simp [create_user, h]

/-- C10 witness: creating `alpha` on an empty DOMjudge state with a failing
role INSERT reports failure yet leaves the user row behind. -/
theorem create_user_nonatomic_witness :
    (create_user (fun s => s) ⟨true, false⟩ ⟨[], []⟩
      "alpha" "Alpha" "a@b.com" "pw" "team").1 = none ∧
    (create_user (fun s => s) ⟨true, false⟩ ⟨[], []⟩
      "alpha" "Alpha" "a@b.com" "pw" "team").2.users =
      ([] : List DJUser) ++ [⟨get_next_user_id ⟨[], []⟩, "alpha", "Alpha", "a@b.com",
        (fun s : String => s) "pw", 1, none⟩] ∧
    (create_user (fun s => s) ⟨true, false⟩ ⟨[], []⟩
      "alpha" "Alpha" "a@b.com" "pw" "team").2.userroles = ([] : List (Nat × Nat)) :=
  create_user_nonatomic (fun s => s) ⟨[], []⟩ "alpha" "Alpha" "a@b.com" "pw" "team"
    (by decide)

/-- Helper: when every stage succeeds on a plan suffix, the creation loop
counts every contest as a success and records no failure. -/
theorem create_loop_all_ok (b : JudgeBehaviour) (l : List Contest) : ∀ s : Nat,
    (∀ i, i < l.length → (b.createResult (s + i)).isSome = true ∧
      b.setClosedOk (s + i) = true ∧ b.saveOk (s + i) = true) →
    (create_contests_loop b s l).1 = l.length ∧
    (create_contests_loop b s l).2.1 = [] := by
  induction l with
  | nil => intro s _; exact ⟨rfl, rfl⟩
  | cons c rest ih =>
    intro s h
    have h0 := h 0 (Nat.succ_pos _)
    rw [Nat.add_zero] at h0
    obtain ⟨cid, hcid⟩ := Option.isSome_iff_exists.mp h0.1
    have hrest := ih (s + 1) (fun i hi => by
      have h2 := h (i + 1) (by simpa using Nat.succ_lt_succ hi)
      have he : s + (i + 1) = s + 1 + i := by omega
      rw [he] at h2
      exact h2)
    simp only [create_contests_loop, hcid, h0.2.1, h0.2.2, if_true]
    exact ⟨by rw [hrest.1]; simp, hrest.2⟩

/-- Helper: when creation fails exactly at plan position `k` and every other
stage succeeds, the loop on the suffix starting at `s ≤ k` counts all but
one contest as successes and records exactly one failure, tagged with the
creation-stage reason. -/
theorem create_loop_one_fail (b : JudgeBehaviour) (l : List Contest) : ∀ s k : Nat,
    s ≤ k → k < s + l.length →
    (∀ i, s ≤ i → i < s + l.length → ((b.createResult i = none) ↔ i = k)) →
    (∀ i, s ≤ i → i < s + l.length → b.setClosedOk i = true) →
    (∀ i, s ≤ i → i < s + l.length → b.saveOk i = true) →
    (create_contests_loop b s l).1 = l.length - 1 ∧
    (create_contests_loop b s l).2.1.length = 1 ∧
    ∀ f ∈ (create_contests_loop b s l).2.1,
      f.error = "Failed to create in DOMjudge" ∧ f.domjudge_id = none := by
  induction l with
  | nil =>
    intro s k h1 h2 _ _ _
    simp only [List.length_nil, Nat.add_zero] at h2
    omega
  | cons c rest ih =>
    intro s k hsk hk hcr hcl hsv
    simp only [List.length_cons] at hk hcr hcl hsv
    by_cases hks : k = s
    · subst hks
      have hnone : b.createResult k = none :=
        (hcr k (Nat.le_refl k) (by omega)).mpr rfl
      have hall := create_loop_all_ok b rest (k + 1) (fun i hi => by
        refine ⟨?_, hcl (k + 1 + i) (by omega) (by omega),
                hsv (k + 1 + i) (by omega) (by omega)⟩
        have hne : ¬ (b.createResult (k + 1 + i) = none) := fun hn => by
          have := (hcr (k + 1 + i) (by omega) (by omega)).mp hn
          omega
        exact Option.isSome_iff_ne_none.mpr hne)
      simp only [create_contests_loop, hnone]
      refine ⟨?_, ?_, ?_⟩
      · rw [hall.1]; simp
      · simp [hall.2]
      · intro f hf
        rw [hall.2] at hf
        simp only [List.mem_singleton] at hf
        subst hf
        exact ⟨rfl, rfl⟩
    · have hcS : ¬ (b.createResult s = none) := fun hn => by
        have := (hcr s (Nat.le_refl s) (by omega)).mp hn
        omega
      obtain ⟨cid, hcid⟩ :=
        Option.isSome_iff_exists.mp (Option.isSome_iff_ne_none.mpr hcS)
      have hclS := hcl s (Nat.le_refl s) (by omega)
      have hsvS := hsv s (Nat.le_refl s) (by omega)
      have hrest := ih (s + 1) k (by omega) (by omega)
        (fun i h1 h2 => hcr i (by omega) (by omega))
        (fun i h1 h2 => hcl i (by omega) (by omega))
        (fun i h1 h2 => hsv i (by omega) (by omega))
      simp only [create_contests_loop, hcid, hclS, hsvS, if_true]
      refine ⟨?_, hrest.2.1, hrest.2.2⟩
      rw [hrest.1]
      simp only [List.length_cons]
      omega

/-- C4: for every plan of `N` contests and every judge-system behaviour in
which contest creation fails for exactly one planned contest while every
other stage succeeds, `create_all_contests` reports
`success_count = N - 1`, `total_contests = N`, and a failure list with
exactly one entry, recorded with the creation-stage reason (and no DOMjudge
id). -/
theorem create_all_single_creation_failure (plan : List Contest)
    (b : JudgeBehaviour) (k : Nat) (hk : k < plan.length)
    (hcr : ∀ i, i < plan.length → ((b.createResult i = none) ↔ i = k))
    (hcl : ∀ i, i < plan.length → b.setClosedOk i = true)
    (hsv : ∀ i, i < plan.length → b.saveOk i = true) :
    (create_all_contests true plan b).success_count = plan.length - 1 ∧
    (create_all_contests true plan b).total_contests = plan.length ∧
    (create_all_contests true plan b).failed_contests.length = 1 ∧
    ∀ f ∈ (create_all_contests true plan b).failed_contests,
      f.error = "Failed to create in DOMjudge" ∧ f.domjudge_id = none := by
  have h := create_loop_one_fail b plan 0 k (Nat.zero_le k) (by omega)
    (fun i _ h2 => hcr i (by omega))
    (fun i _ h2 => hcl i (by omega))
    (fun i _ h2 => hsv i (by omega))
  exact ⟨h.1, rfl, h.2.1, h.2.2⟩

/-- C4 witness: a two-contest plan where creating the first contest fails
and everything else succeeds: one success, one recorded failure, total 2. -/
theorem create_all_single_creation_failure_witness :
    (create_all_contests true witness_plan witness_behaviour).success_count = 1 ∧
    (create_all_contests true witness_plan witness_behaviour).total_contests = 2 ∧
    (create_all_contests true witness_plan witness_behaviour).failed_contests.length
      = 1 :=
  have h := create_all_single_creation_failure witness_plan witness_behaviour 0
    (by decide) (by decide) (by decide) (by decide)
  ⟨h.1, h.2.1, h.2.2.1⟩

/-- Helper: skipping a leading underscore run commutes with the scan state. -/
theorem collapseSpecGo_true_eq (t : List Char) :
    collapseSpecGo true t = collapseSpecGo true (t.dropWhile fun x => x = '_') := by
  induction t with
  | nil => rfl
  | cons c r ih =>
    by_cases h : c = '_'
    · simp only [collapseSpecGo, h, if_true, List.dropWhile, decide_True]
      exact ih
    · simp [List.dropWhile, h]

/-- Helper: replacing maximal underscore runs equals the spec's
left-to-right collapse scan (induction on a length bound). -/
theorem subUnderscores_eq_go : ∀ (n : Nat) (l : List Char), l.length ≤ n →
    subUnderscores l = collapseSpecGo false l := by
  intro n
  induction n with
  | zero =>
    intro l h
    have hl : l = [] := List.eq_nil_of_length_eq_zero (Nat.le_zero.mp h)
    subst hl
    unfold subUnderscores
    rfl
  | succ n ih =>
    intro l h
    match l with
    | [] =>
      unfold subUnderscores
      rfl
    | c :: t =>
      rw [subUnderscores.eq_def]
      by_cases hc : c = '_'
      · simp only [hc, if_true, collapseSpecGo, decide_True]
        rw [collapseSpecGo_true_eq]
        have h2 : (t.dropWhile fun x => decide (x = '_')).length ≤ n := by
          have hle : (List.dropWhile (fun x => decide (x = '_')) t).length ≤ t.length :=
            (List.dropWhile_sublist _).length_le
          simp only [List.length_cons] at h
          omega
        rw [ih _ h2]
        cases hdw : t.dropWhile fun x => decide (x = '_') with
        | nil => rfl
        | cons d r =>
          have hd0 := List.head?_dropWhile_not (fun x => decide (x = '_')) t
          rw [hdw] at hd0
          have hd : ¬ (d = '_') := by simpa using hd0
          simp [collapseSpecGo, hd]
      · simp only [hc, if_false, collapseSpecGo]
        simp only [List.length_cons] at h
        rw [ih t (by omega)]

/-- Helper: `subUnderscores` agrees with the spec's collapse step. -/
theorem subUnderscores_eq_spec (l : List Char) :
    subUnderscores l = collapse_spec l :=
  subUnderscores_eq_go l.length l (Nat.le_refl _)

/-- C8: username generation refines the spec's pipeline (lowercase, replace
non-alphanumerics with `_`, collapse runs, trim, `team_` prefix under 3
characters, truncate to 50); concretely, `"Team Alpha #1!"` yields a
username of only lowercase letters, digits and single underscores, with no
leading or trailing underscore and length at most 50, and `"@@"`, which
reduces to fewer than 3 characters, yields exactly the `team_` prefix. -/
theorem username_generation :
    (∀ s : String, generate_username s = generate_username_spec s) ∧
    (generate_username "Team Alpha #1!").toList.all usernameOkChar = true ∧
    noDoubleUnderscore (generate_username "Team Alpha #1!").toList = true ∧
    (generate_username "Team Alpha #1!").toList.head? ≠ some '_' ∧
    (generate_username "Team Alpha #1!").toList.getLast? ≠ some '_' ∧
    (generate_username "Team Alpha #1!").length ≤ 50 ∧
    generate_username "@@" = "team_" := by
  have h : ∀ s : String, generate_username s = generate_username_spec s := by
    intro s
    unfold generate_username generate_username_spec
    rw [subUnderscores_eq_spec]
  refine ⟨h, ?_, ?_, ?_, ?_, ?_, ?_⟩ <;> rw [h] <;> decide

/-- C8 witness: the refinement instantiated at the concrete name
`"Team Alpha #1!"`. -/
theorem username_generation_witness :
    generate_username "Team Alpha #1!" = generate_username_spec "Team Alpha #1!" :=
  username_generation.1 "Team Alpha #1!"

/-- C9: `display_progress_bar 25 50 50 "Progress"` renders a bar of exactly
25 filled glyphs followed by 25 empty glyphs, with percentage label `50.0%`
and suffix `(25/50)`. -/
theorem progress_bar_25_50 :
    display_progress_bar 25 50 50 "Progress" =
      "Progress: |" ++ String.mk (List.replicate 25 '█' ++ List.replicate 25 '░') ++
        "| 50.0% (25/50)" := by
  have h1 : ((((50 : Nat) : Rat) *
      (((25 : Nat) : Rat) / ((50 : Nat) : Rat))).floor).toNat = 25 := by
    norm_num
    rfl
  have h2 : (round ((((25 : Nat) : Rat) / ((50 : Nat) : Rat)) * 100 * 10)).toNat
      = 500 := by
    norm_num
    rfl
  simp only [display_progress_bar, format_one_decimal]
  rw [if_neg (by decide)]
  rw [h1, h2]
  rfl

/-- C7: a two-row teams CSV whose rows carry identical team names but
distinct valid emails (all fields otherwise valid) yields exactly one
error — the row-3 duplicate-team-name error — admits only the first of the
two rows into the valid-teams output, and is marked invalid overall. -/
theorem csv_duplicate_team_name (n e1 e2 inst : String)
    (hname : (validate_team_name (pyStrip n)).2 = none)
    (hem1 : (validate_email (pyLower (pyStrip e1))).2 = none)
    (hem2 : (validate_email (pyLower (pyStrip e2))).2 = none)
    (hinst : (validate_institution (pyStrip inst)).2 = none)
    (hdiff : pyLower (pyStrip e1) ≠ pyLower (pyStrip e2)) :
    validate_teams_rows [(n, e1, inst), (n, e2, inst)] =
      (false,
       ["Row 3: Duplicate team name \x27" ++ pyStrip n ++ "\x27"],
       [⟨pyStrip n, pyLower (pyStrip e1), pyStrip inst, 2⟩]) := by
  have hn : pyStrip n ≠ "" := by
    intro h0
    simp [validate_team_name, h0] at hname
  have hdiff2 : pyLower (pyStrip e2) ≠ pyLower (pyStrip e1) := hdiff.symm
  have herr : "Row " ++ toString (3 : Nat) ++ ": Duplicate team name \x27" =
      "Row 3: Duplicate team name \x27" := by decide
  simp only [validate_teams_rows, validate_teams_rows_go, rowFieldErrors,
    validate_team_data, hname, hem1, hem2, hinst, List.filterMap_cons,
    List.filterMap_nil, Option.map_none, List.contains_nil, Bool.and_false,
    List.contains_cons, List.mem_singleton,
    List.append_nil, List.nil_append]
  simp [hn, hdiff2, List.contains_cons, beq_iff_eq]
  rw [herr]

/-- C7 witness: two rows named `Alpha` with distinct valid emails. -/
theorem csv_duplicate_team_name_witness :
    validate_teams_rows
        [("Alpha", "a@b.com", "MIT"), ("Alpha", "c@d.com", "MIT")] =
      (false,
       ["Row 3: Duplicate team name \x27" ++ pyStrip "Alpha" ++ "\x27"],
       [⟨pyStrip "Alpha", pyLower (pyStrip "a@b.com"), pyStrip "MIT", 2⟩]) :=
  csv_duplicate_team_name "Alpha" "a@b.com" "c@d.com" "MIT"
    (by decide) (by decide) (by decide) (by decide) (by decide)

end CoderCombat
